import Mathlib

/-!
Verification of the response-normalization and join layer of the
speedrun-rust-cli program (src/main.rs), shallowly embedded in Lean 4.

Conventions of the embedding:
* JSON values (`serde_json::Value`) are modelled by the inductive `Json`.
* A Rust panic (an untyped crash via `unwrap`, `expect` or `panic!`) is
  modelled by the error side of `Except RustPanic`; the constructors record
  which kind of panic the source line raises.
* `HashMap<String, CategoryObj>` is modelled by an association list together
  with `mapInsert` (replace-on-collision, the semantics of
  `HashMap::insert`) and `mapLookup` (first match, unique keys by
  construction).
* Machine integers (`u16`, `u32`) carry values far below their bounds in
  every operation modelled here, so they are represented by `Nat`.
* The `iso8601` crate is an external dependency of the program, not
  repository code; its `duration` parser is modelled by `iso8601_duration`
  following the crate's grammar for ISO-8601 durations (see its doc
  comment), with fractional seconds scaled to thousandths to give the
  millisecond field.
-/

namespace Speedrun

/-- Models `serde_json::Value`: the dynamically-typed JSON values the
program receives from the web service. -/
inductive Json where
  | null : Json
  | bool (b : Bool) : Json
  | num (n : Int) : Json
  | str (s : String) : Json
  | arr (elems : List Json) : Json
  | obj (fields : List (String × Json)) : Json

/-- Models `serde_json::Value::is_null`. -/
def Json.isNull : Json → Bool
  | .null => true
  | _ => false

/-- Models `serde_json::Value::get(key)`: field lookup on an object,
`None` on every other shape. -/
def Json.get (j : Json) (key : String) : Option Json :=
  match j with
  | .obj fields => (fields.find? (fun p => p.1 == key)).map (fun p => p.2)
  | _ => none

/-- Models `serde_json::Value::as_str`. -/
def Json.asStr : Json → Option String
  | .str s => some s
  | _ => none

/-- A Rust panic: the untyped crash raised by `Option::unwrap`,
`Option::expect` or the `panic!` macro in src/main.rs. The program has no
typed error enum; every failure in the normalization layer is one of
these. -/
inductive RustPanic where
  | unwrapNone : RustPanic
  | expectMsg (msg : String) : RustPanic
  | explicitMsg (msg : String) : RustPanic
deriving DecidableEq

/-- Models the `Duration` type of the external `iso8601` crate: either a
year/month/day/hour/minute/second/millisecond record or a number of
weeks. -/
inductive Iso8601Duration where
  | YMDHMS (year month day hour minute second millisecond : Nat) : Iso8601Duration
  | Weeks (w : Nat) : Iso8601Duration
deriving DecidableEq

/-- Models `struct Link { rel, uri }` (src/main.rs:26-30). -/
structure Link where
  rel : String
  uri : String
deriving DecidableEq

/-- Models `struct Names { international, japanese }` (src/main.rs:242-246);
both fields are raw JSON values in the source. -/
structure Names where
  international : Json
  japanese : Json

/-- Models `struct GameResult { abbreviation, names, released, links }`
(src/main.rs:18-24). `released` is a `u16` in the source. -/
structure GameResult where
  abbreviation : String
  names : Names
  released : Nat
  links : List Link

/-- Models `struct PlayerRef { rel, id, name, uri }` (src/main.rs:117-123). -/
structure PlayerRef where
  rel : String
  id : Option String
  name : Option String
  uri : String
deriving DecidableEq

/-- Models `struct Run { id, weblink, video, time, submitted, player_refs }`
(src/main.rs:107-115). -/
structure Run where
  id : String
  weblink : String
  video : String
  time : Iso8601Duration
  submitted : String
  player_refs : List PlayerRef
deriving DecidableEq

/-- Models `struct RecordCategory { game, weblink, category, runs }`
(src/main.rs:44-50). -/
structure RecordCategory where
  game : String
  weblink : String
  category : String
  runs : List Run
deriving DecidableEq

/-- Models `struct CategoryObj { id, name, type }` (src/main.rs:202-207). -/
structure CategoryObj where
  id : String
  name : String
  type : String
deriving DecidableEq

/-- Consume a maximal non-empty prefix of decimal digits; returns the value,
the number of digits consumed and the rest. Helper for the model of the
`iso8601` crate's parser. -/
def digitsAux : List Char → Nat → Nat → Nat × Nat × List Char
  | [], v, n => (v, n, [])
  | c :: cs, v, n =>
      if c.isDigit then digitsAux cs (v * 10 + (c.toNat - 48)) (n + 1)
      else (v, n, c :: cs)

/-- Take at least one digit from the front of the input. -/
def takeDigits (cs : List Char) : Option (Nat × Nat × List Char) :=
  match digitsAux cs 0 0 with
  | (_, 0, _) => none
  | (v, n, rest) => some (v, n, rest)

/-- One optional duration component `<digits><marker>`; on failure the
input is left untouched and the component is 0 (the backtracking `opt`
combinator of the crate's nom parser). -/
def durComponent (marker : Char) (cs : List Char) : Nat × List Char :=
  match takeDigits cs with
  | some (v, _, c :: rest) => if c = marker then (v, rest) else (0, cs)
  | _ => (0, cs)

/-- The optional seconds component `<digits>[. or , <digits>]S`, yielding
(seconds, milliseconds, rest). The fractional digits are scaled to
thousandths of a second, as the crate converts the fraction to
milliseconds. -/
def durSecondComponent (cs : List Char) : Nat × Nat × List Char :=
  match takeDigits cs with
  | some (s, _, c :: rest) =>
      if c = 'S' then (s, 0, rest)
      else if c = '.' ∨ c = ',' then
        match takeDigits rest with
        | some (f, n, 'S' :: rest₂) => (s, f * 1000 / 10 ^ n, rest₂)
        | _ => (0, 0, cs)
      else (0, 0, cs)
  | _ => (0, 0, cs)

/-- The `[nY][nM][nD][T[nH][nM][nS]]` alternative of the duration grammar,
applied to the input after the leading `P`; succeeds only when the whole
input is consumed. -/
def parseYmdhms (cs : List Char) : Except String Iso8601Duration :=
  let (y, r₁) := durComponent 'Y' cs
  let (mo, r₂) := durComponent 'M' r₁
  let (d, r₃) := durComponent 'D' r₂
  match r₃ with
  | 'T' :: r₄ =>
      let (h, r₅) := durComponent 'H' r₄
      let (mi, r₆) := durComponent 'M' r₅
      let (s, ms, r₇) := durSecondComponent r₆
      if r₇.isEmpty then Except.ok (Iso8601Duration.YMDHMS y mo d h mi s ms)
      else Except.error "parsing duration failed"
  | [] => Except.ok (Iso8601Duration.YMDHMS y mo d 0 0 0 0)
  | _ => Except.error "parsing duration failed"

/-- Models `iso8601::duration` (the external crate called at
src/main.rs:183): `P` followed by either `nW` (weeks) or the
year/month/day/time form. Calendar-only strings such as `"P1Y"` parse to
a `YMDHMS` value whose time fields are all zero; only the week form
produces the non-`YMDHMS` variant. -/
def iso8601_duration (raw : String) : Except String Iso8601Duration :=
  match raw.data with
  | 'P' :: rest =>
      match takeDigits rest with
      | some (w, _, 'W' :: r₂) =>
          if r₂.isEmpty then Except.ok (Iso8601Duration.Weeks w)
          else parseYmdhms rest
      | _ => parseYmdhms rest
  | _ => Except.error "parsing duration failed"

/-- Models the `time` binding of `Run::deserialize` (src/main.rs:182-189):
parse `times.realtime` with the `iso8601` crate and `panic!` on a parse
error. -/
def run_time (realtime : String) : Except RustPanic Iso8601Duration :=
  match iso8601_duration realtime with
  | Except.ok d => Except.ok d
  | Except.error _ => Except.error (RustPanic.explicitMsg "Error parsing duration")

/-- `{:02}` formatting of a small number: pad with a leading zero below
ten. -/
def pad2 (n : Nat) : String :=
  if n < 10 then "0" ++ toString n else toString n

/-- Models the `time` column of `impl fmt::Display for RecordCategory`
(src/main.rs:56-72): a `YMDHMS` duration is formatted
`hh:mm:ss:ms`, any other variant prints the sentinel
"No time provided". -/
def time_display (d : Iso8601Duration) : String :=
  match d with
  | Iso8601Duration.YMDHMS _ _ _ h m s ms =>
      pad2 h ++ ":" ++ pad2 m ++ ":" ++ pad2 s ++ ":" ++ pad2 ms
  | Iso8601Duration.Weeks _ => "No time provided"

/-- Models the `player` binding of `impl fmt::Display for RecordCategory`
(src/main.rs:74-90): unwrap the first player reference, then take its
`id` when `rel == "user"` and its `name` otherwise, unwrapping either
option. The result the code uses is the plain display string. -/
def resolve_player (refs : List PlayerRef) : Except RustPanic String :=
  match refs with
  | [] => Except.error RustPanic.unwrapNone
  | r :: _ =>
      if r.rel == "user" then
        match r.id with
        | some i => Except.ok i
        | none => Except.error RustPanic.unwrapNone
      else
        match r.name with
        | some n => Except.ok n
        | none => Except.error RustPanic.unwrapNone

/-- Models the `videos` binding of `Run::deserialize` (src/main.rs:156-172):
a null container yields no candidates; otherwise the `links` field is
unwrapped (panicking when absent), an array collects every entry's `uri`
string (panicking when an entry has no `uri` or a non-string one), and any
non-array `links` value yields no candidates. -/
def collect_videos (videos : Json) : Except RustPanic (List String) :=
  if videos.isNull then Except.ok []
  else
    match videos.get "links" with
    | none => Except.error RustPanic.unwrapNone
    | some (Json.arr elems) =>
        elems.mapM (fun x =>
          match x.get "uri" with
          | none => Except.error (RustPanic.expectMsg "failed to find uri")
          | some v =>
              match v.asStr with
              | none => Except.error (RustPanic.expectMsg "Failed to convert to string")
              | some s => Except.ok s)
    | some _ => Except.ok []

/-- Models the `video` binding of `Run::deserialize` (src/main.rs:174-180):
with exactly two candidate URIs pick the second, with exactly one pick it,
otherwise the empty string. -/
def select_video (videos : List String) : String :=
  if videos.length = 2 then videos.getD 1 ""
  else if videos.length = 1 then videos.getD 0 ""
  else ""

/-- The composed video selection of `Run::deserialize`: collect the
candidates from the raw container, then apply the count-based choice. -/
def video_of (videos : Json) : Except RustPanic String :=
  match collect_videos videos with
  | Except.ok vids => Except.ok (select_video vids)
  | Except.error e => Except.error e

/-- Association-list model of `HashMap::insert`: replace the value at an
existing key, otherwise append a fresh entry. -/
def mapInsert (m : List (String × CategoryObj)) (k : String) (v : CategoryObj) :
    List (String × CategoryObj) :=
  match m with
  | [] => [(k, v)]
  | (k₂, v₂) :: rest => if k₂ = k then (k, v) :: rest else (k₂, v₂) :: mapInsert rest k v

/-- Association-list model of `HashMap::get`. -/
def mapLookup (m : List (String × CategoryObj)) (k : String) : Option CategoryObj :=
  match m with
  | [] => none
  | (k₂, v₂) :: rest => if k₂ = k then some v₂ else mapLookup rest k

/-- Models the body of the build loop of `get_categories`
(src/main.rs:222-231): insert the category under its own id, rebuilding
the stored value from the three fields. -/
def insert_cat (hash : List (String × CategoryObj)) (cat : CategoryObj) :
    List (String × CategoryObj) :=
  mapInsert hash cat.id (CategoryObj.mk cat.id cat.name cat.type)

/-- Models the pure core of `get_categories` (src/main.rs:220-233): fold the
deserialized category list into a map keyed by category id. The
surrounding HTTP fetch and JSON deserialization are the external
collaborator's input and are taken as the already-parsed list. -/
def get_categories (categories : List CategoryObj) : List (String × CategoryObj) :=
  categories.foldl insert_cat []

/-- The predicate of the `retain` call in `main` (src/main.rs:318-321),
with the lookup's unwrap made explicit: a record survives when its
category is in the catalog with `type == "per-game"`. -/
def is_per_game (catalog : List (String × CategoryObj)) (r : RecordCategory) : Bool :=
  match mapLookup catalog r.category with
  | some cat => cat.type == "per-game"
  | none => false

/-- Models `records.retain(...)` in `main` (src/main.rs:318-321): walk the
records front to back, `unwrap` the catalog lookup of each record's
category id (panicking at the first absent id), and keep exactly the
records whose category has `type == "per-game"`. -/
def retain_records (catalog : List (String × CategoryObj)) :
    List RecordCategory → Except RustPanic (List RecordCategory)
  | [] => Except.ok []
  | r :: rest =>
      match mapLookup catalog r.category with
      | none => Except.error RustPanic.unwrapNone
      | some cat =>
          match retain_records catalog rest with
          | Except.error e => Except.error e
          | Except.ok kept =>
              Except.ok (if cat.type == "per-game" then r :: kept else kept)

/-- Models the endpoint extraction in `main` (src/main.rs:301-314): find
the link with `rel == "records"` and the link with `rel == "categories"`
in the selected game's link list, unwrapping each `find` (the first
absent relation panics). -/
def endpoint_uris (g : GameResult) : Except RustPanic (String × String) :=
  match g.links.find? (fun link => link.rel == "records") with
  | none => Except.error RustPanic.unwrapNone
  | some r =>
      match g.links.find? (fun link => link.rel == "categories") with
      | none => Except.error RustPanic.unwrapNone
      | some c => Except.ok (r.uri, c.uri)

/-- `find?` over an append scans the left list first. -/
theorem find?_append_eq {α : Type} (l₁ l₂ : List α) (p : α → Bool) :
    (l₁ ++ l₂).find? p =
      match l₁.find? p with
      | some x => some x
      | none => l₂.find? p := by
  induction l₁ with
  | nil => simp
  | cons a l ih =>
      by_cases hp : p a
      · simp [List.find?, hp]
      · simp only [List.cons_append, List.find?, Bool.of_not_eq_true hp, List.append_eq, ih]

/-- Looking up in a map after `mapInsert` sees the inserted value at its
key and the old map elsewhere. -/
theorem mapLookup_mapInsert (m : List (String × CategoryObj)) (k k₁ : String)
    (v : CategoryObj) :
    mapLookup (mapInsert m k v) k₁ = if k = k₁ then some v else mapLookup m k₁ := by
  induction m with
  | nil => simp [mapInsert, mapLookup]
  | cons p rest ih =>
      obtain ⟨a, b⟩ := p
      by_cases hak : a = k
      · subst hak
        by_cases hk₁ : a = k₁ <;> simp [mapInsert, mapLookup, hk₁]
      · by_cases hk₁ : a = k₁
        · subst hk₁
          have : ¬k = a := fun h => hak h.symm
          simp [mapInsert, mapLookup, hak, this]
        · simp [mapInsert, mapLookup, hak, hk₁, ih]

/-- The catalog fold, started from an arbitrary map, looks up to the last
matching input element when one exists and to the start map otherwise. -/
theorem mapLookup_build_aux (cats : List CategoryObj)
    (m : List (String × CategoryObj)) (k : String) :
    mapLookup (cats.foldl insert_cat m) k =
      match cats.reverse.find? (fun c => c.id == k) with
      | some c => some (CategoryObj.mk c.id c.name c.type)
      | none => mapLookup m k := by
  induction cats generalizing m with
  | nil => simp
  | cons c cs ih =>
      rw [List.foldl_cons, ih (insert_cat m c)]
      rw [List.reverse_cons, find?_append_eq]
      cases hfind : cs.reverse.find? (fun c => c.id == k) with
      | some c₂ => rfl
      | none =>
          show mapLookup (insert_cat m c) k = _
          rw [insert_cat, mapLookup_mapInsert]
          by_cases hc : c.id = k
          · simp [List.find?, hc]
          · have hb : (c.id == k) = false := by simp [hc]
            simp [List.find?, hb, hc]

/-- C1: for every catalog and every record sequence whose category ids are
all present in the catalog, the assembler's retain step keeps exactly the
records whose category has kind "per-game", as the order-preserving
`List.filter` of the input; the surviving records are the input records
themselves, so the run entries inside each keep their input order. -/
theorem retain_records_filters (catalog : List (String × CategoryObj))
    (records : List RecordCategory)
    (h : ∀ r ∈ records, (mapLookup catalog r.category).isSome = true) :
    retain_records catalog records =
      Except.ok (records.filter (fun r => is_per_game catalog r)) := by
  induction records with
  | nil => rfl
  | cons r rest ih =>
      have hr : (mapLookup catalog r.category).isSome = true := h r (by simp)
      have hrest : ∀ x ∈ rest, (mapLookup catalog x.category).isSome = true :=
        fun x hx => h x (List.mem_cons_of_mem r hx)
      obtain ⟨cat, hcat⟩ := Option.isSome_iff_exists.mp hr
      rw [List.filter_cons]
      simp only [retain_records, hcat, ih hrest, is_per_game]

/-- Witness for C1 at the spec's own example: categories c1 (per-game) and
c2 (misc), one record referencing each; the hypothesis holds and only the
c1 record survives, in input order. -/
theorem retain_records_filters_witness :
    (∀ r ∈ [RecordCategory.mk "g" "wa" "c1" [], RecordCategory.mk "g" "wb" "c2" []],
        (mapLookup (get_categories
          [CategoryObj.mk "c1" "Any%" "per-game", CategoryObj.mk "c2" "All Pies" "misc"])
          r.category).isSome = true) ∧
    retain_records
        (get_categories
          [CategoryObj.mk "c1" "Any%" "per-game", CategoryObj.mk "c2" "All Pies" "misc"])
        [RecordCategory.mk "g" "wa" "c1" [], RecordCategory.mk "g" "wb" "c2" []] =
      Except.ok
        ([RecordCategory.mk "g" "wa" "c1" [], RecordCategory.mk "g" "wb" "c2" []].filter
          (fun r => is_per_game
            (get_categories
              [CategoryObj.mk "c1" "Any%" "per-game", CategoryObj.mk "c2" "All Pies" "misc"])
            r)) :=
  ⟨by decide, retain_records_filters _ _ (by decide)⟩

/-- C2: on a non-empty player reference list the resolver looks only at the
head: the result does not depend on the tail, a head with rel "user" and an
id resolves to that registered user id, and a head with any other rel and a
name resolves to that guest name. -/
theorem resolve_player_first_ref (r : PlayerRef) (rest : List PlayerRef) :
    (∀ rest₂, resolve_player (r :: rest) = resolve_player (r :: rest₂)) ∧
    (r.rel = "user" → ∀ i, r.id = some i →
      resolve_player (r :: rest) = Except.ok i) ∧
    (r.rel ≠ "user" → ∀ n, r.name = some n →
      resolve_player (r :: rest) = Except.ok n) := by
  refine ⟨fun rest₂ => rfl, ?_, ?_⟩
  · intro hrel i hid
    simp [resolve_player, hrel, hid]
  · intro hrel n hname
    have hb : (r.rel == "user") = false := by simp [hrel]
    simp [resolve_player, hb, hname]

/-- Witness for C2: a registered-user reference resolves to its id and a
guest reference resolves to its name, each with an arbitrary tail
ignored. -/
theorem resolve_player_first_ref_witness :
    resolve_player
        [PlayerRef.mk "user" (some "zx7gd448") none "u1",
         PlayerRef.mk "guest" none (some "Bob") "u2"] = Except.ok "zx7gd448" ∧
    resolve_player [PlayerRef.mk "guest" none (some "Alice") "u3"] = Except.ok "Alice" :=
  ⟨(resolve_player_first_ref (PlayerRef.mk "user" (some "zx7gd448") none "u1")
      [PlayerRef.mk "guest" none (some "Bob") "u2"]).2.1 rfl "zx7gd448" rfl,
   (resolve_player_first_ref (PlayerRef.mk "guest" none (some "Alice") "u3") []).2.2
      (by decide) "Alice" rfl⟩

/-- C3 (code bug): parsing "PT1H2M3.004S" does yield hours 1, minutes 2,
seconds 3, milliseconds 4, as claimed; but the calendar-only string "P1Y"
parses to a `YMDHMS` value with year 1 and all-zero time fields, which the
display layer formats as "00:00:00:00" instead of the
"No time provided" sentinel — the sentinel branch fires only for the
week form of a duration. -/
theorem duration_parse_calendar_only :
    run_time "PT1H2M3.004S" = Except.ok (Iso8601Duration.YMDHMS 0 0 0 1 2 3 4) ∧
    run_time "P1Y" = Except.ok (Iso8601Duration.YMDHMS 1 0 0 0 0 0 0) ∧
    time_display (Iso8601Duration.YMDHMS 1 0 0 0 0 0 0) = "00:00:00:00" ∧
    time_display (Iso8601Duration.YMDHMS 1 0 0 0 0 0 0) ≠ "No time provided" ∧
    time_display (Iso8601Duration.Weeks 4) = "No time provided" :=
  ⟨rfl, rfl, rfl, by decide, rfl⟩

/-- C4: the video selector returns the empty string on an empty candidate
list, the sole element on a one-element list, and the second element on a
two-element list. -/
theorem select_video_cases :
    select_video [] = "" ∧
    (∀ a : String, select_video [a] = a) ∧
    (∀ a b : String, select_video [a, b] = b) :=
  ⟨rfl, fun _ => rfl, fun _ _ => rfl⟩

/-- C5 (code bug): resolving the player identity of a run with an empty
player reference list crashes with the untyped `Option::unwrap` panic of
src/main.rs:74; the program has no typed `MalformedPlayerReference`
error. -/
theorem resolve_player_empty_crashes :
    resolve_player [] = Except.error RustPanic.unwrapNone := rfl

/-- C6 (code bug): when a record references a category id absent from the
catalog, the assembler's retain step crashes with the untyped
`Option::unwrap` panic of src/main.rs:319 rather than a typed
`UnknownCategory` error; the crash yields no record list at all, so no
leaderboard is emitted for the record preceding the failing one. -/
theorem retain_unknown_category_crashes :
    retain_records (get_categories [CategoryObj.mk "c1" "Any%" "per-game"])
        [RecordCategory.mk "game1" "w1" "c1" [], RecordCategory.mk "game1" "w2" "c9" []] =
      Except.error RustPanic.unwrapNone := rfl

/-- C7 (code bug): a game whose link list lacks the "records" relation, or
lacks the "categories" relation, crashes endpoint extraction with the
untyped `Option::unwrap` panic of src/main.rs:301-314; the program has no
typed `MissingEndpoint` error. -/
theorem endpoint_uris_missing_link_crashes :
    endpoint_uris (GameResult.mk "sm64" (Names.mk (Json.str "Super Mario 64") Json.null)
        1996 [Link.mk "categories" "https://example/categories"]) =
      Except.error RustPanic.unwrapNone ∧
    endpoint_uris (GameResult.mk "sm64" (Names.mk (Json.str "Super Mario 64") Json.null)
        1996 [Link.mk "records" "https://example/records"]) =
      Except.error RustPanic.unwrapNone :=
  ⟨rfl, rfl⟩

/-- C8 (code bug): video selection is not total over run payloads — a null
container and a well-formed two-link container behave as specified, but a
non-null video container without a "links" field crashes with the untyped
`Option::unwrap` panic of src/main.rs:157 instead of degrading to the
empty string. -/
theorem video_of_malformed_container_crashes :
    video_of Json.null = Except.ok "" ∧
    video_of (Json.obj [("links", Json.arr
        [Json.obj [("uri", Json.str "https://a")],
         Json.obj [("uri", Json.str "https://b")]])]) = Except.ok "https://b" ∧
    video_of (Json.obj []) = Except.error RustPanic.unwrapNone :=
  ⟨rfl, rfl, rfl⟩

/-- C9: the catalog build is a pure function, so building twice from the
same input yields key/value-equal catalogs; and lookup in the built
catalog returns exactly the last input element carrying the looked-up id
(last-wins on duplicate ids). -/
theorem get_categories_idempotent_last_wins :
    (∀ (cats : List CategoryObj) (k : String),
        mapLookup (get_categories cats) k = mapLookup (get_categories cats) k) ∧
    (∀ (cats : List CategoryObj) (k : String),
        mapLookup (get_categories cats) k =
          cats.reverse.find? (fun c => c.id == k)) := by
  refine ⟨fun cats k => rfl, fun cats k => ?_⟩
  rw [get_categories, mapLookup_build_aux cats [] k]
  cases hfind : cats.reverse.find? (fun c => c.id == k) with
  | some c => rfl
  | none => rfl

/-- C10: every key the built catalog answers for is the id of the stored
category, the stored category's fields come verbatim from an input element
with that id, and no key outside the input ids is ever answered. -/
theorem get_categories_key_consistency (cats : List CategoryObj) (k : String)
    (c : CategoryObj) (h : mapLookup (get_categories cats) k = some c) :
    c.id = k ∧
    (∃ src ∈ cats, src.id = k ∧ c.name = src.name ∧ c.type = src.type) ∧
    k ∈ cats.map (fun x => x.id) := by
  rw [get_categories, mapLookup_build_aux cats [] k] at h
  cases hfind : cats.reverse.find? (fun x => x.id == k) with
  | none => rw [hfind] at h; exact absurd h (by simp [mapLookup])
  | some c₂ =>
      rw [hfind] at h
      have hc : c = c₂ := by
        have : some (CategoryObj.mk c₂.id c₂.name c₂.type) = some c := h
        exact (Option.some_inj.mp this).symm
      have hid : c₂.id = k := by simpa using List.find?_some hfind
      have hmem : c₂ ∈ cats := List.mem_reverse.mp (List.mem_of_find?_eq_some hfind)
      subst hc
      exact ⟨hid, ⟨c, hmem, hid, rfl, rfl⟩,
        List.mem_map.mpr ⟨c, hmem, hid⟩⟩

/-- Witness for C10 at a one-element catalog input. -/
theorem get_categories_key_consistency_witness :
    (CategoryObj.mk "c1" "Any%" "per-game").id = "c1" ∧
    (∃ src ∈ [CategoryObj.mk "c1" "Any%" "per-game"], src.id = "c1" ∧
        (CategoryObj.mk "c1" "Any%" "per-game").name = src.name ∧
        (CategoryObj.mk "c1" "Any%" "per-game").type = src.type) ∧
    "c1" ∈ [CategoryObj.mk "c1" "Any%" "per-game"].map (fun x => x.id) :=
  get_categories_key_consistency [CategoryObj.mk "c1" "Any%" "per-game"] "c1"
    (CategoryObj.mk "c1" "Any%" "per-game") rfl

end Speedrun
